import Mathlib

/-!
Shallow embedding of the OAuth2 token-lifecycle core of the
jotform-bitrix24-integration repository, together with theorems checking the
natural-language specification against it.

Conventions of the embedding:
* time is a `Nat` of seconds since some epoch (JS `Date` comparison `now >
  token.expires_at` is order-preserving in any fixed unit);
* `null`/`undefined` fields are `Option`;
* JS truthiness of numbers (`expires_in || 3600`) is modelled explicitly
  (`0` and `undefined` are falsy);
* fallible operations return `Except String _`; a JS function that catches an
  exception and returns a plain value produces `.ok`, a function that
  throws/rejects produces `.error`.
-/

namespace JotformBitrix

/-- The persisted credential record, with the fields written by
`Bitrix24NewService` (src/unnamed/part_002) through
`DatabaseService.saveToken`. -/
structure TokenData where
  access_token : String
  refresh_token : Option String
  expires_in : Option Nat
  expires_at : Option Nat
  domain : String
  scope : Option String
  client_endpoint : Option String
  server_endpoint : Option String
  member_id : Option String
  status : Option String
  application_token : Option String
  method : String
  created_at : Nat
  updated_at : Nat
  deriving Repr, DecidableEq

/-- `const isExpired = token.expires_at ? now > token.expires_at : false;`
as written in `Bitrix24NewService.getTokenStatus` and
`Bitrix24NewService.refreshTokenIfNeeded` (src/unnamed/part_002): strict
`>` comparison, `false` when `expires_at` is null. -/
def tokenIsExpired (now : Nat) (t : TokenData) : Bool :=
  match t.expires_at with
  | some e => decide (now > e)
  | none => false

/-- The expiry pre-check inside `Bitrix24NewService.callBitrixAPI`
(src/unnamed/part_002 lines 667-679): a refresh is triggered before the API
post exactly when the token method is `oauth2`, `expires_at` is non-null and
`now > token.expires_at`. -/
def callPreCheckRefresh (now : Nat) (t : TokenData) : Bool :=
  t.method == "oauth2" &&
    (match t.expires_at with
     | some e => decide (now > e)
     | none => false)

/-- JS `x || d` on an optional number: `undefined` and `0` are falsy. -/
def jsNumOr (x : Option Nat) (d : Nat) : Nat :=
  match x with
  | some n => if n == 0 then d else n
  | none => d

/-- Payload of the `auth` object of an `ONAPPINSTALL` event (and of the plain
OAuth2-flow payload, which has the same shape). -/
structure InstallAuth where
  access_token : String
  refresh_token : Option String
  expires_in : Option Nat
  domain : String
  scope : Option String
  client_endpoint : Option String
  server_endpoint : Option String
  member_id : Option String
  status : Option String
  application_token : Option String
  deriving Repr, DecidableEq

/-- `Bitrix24NewService.processONAPPINSTALLEvent` (src/unnamed/part_002
lines 99-119): builds the stored record.  The expiry is
`expiresAt.setSeconds(expiresAt.getSeconds() + (authData.expires_in || 3600))`,
i.e. `now + (expires_in or 3600 when absent or zero)`. -/
def processONAPPINSTALLEvent (now : Nat) (a : InstallAuth) : TokenData :=
  { access_token := a.access_token
    refresh_token := a.refresh_token
    expires_in := a.expires_in
    expires_at := some (now + jsNumOr a.expires_in 3600)
    domain := a.domain
    scope := a.scope
    client_endpoint := a.client_endpoint
    server_endpoint := a.server_endpoint
    member_id := a.member_id
    status := a.status
    application_token := a.application_token
    method := "oauth2"
    created_at := now
    updated_at := now }

/-- Payload of a direct installation POST (simplified method). -/
structure DirectInstallData where
  AUTH_ID : String
  REFRESH_ID : Option String
  DOMAIN : String
  member_id : Option String
  status : Option String
  deriving Repr, DecidableEq

/-- `Bitrix24NewService.processDirectInstallationData` (src/unnamed/part_002):
simplified-auth record with `expires_in = null`, `expires_at = null`,
`method = "simplified_auth"`; the `AUTH_ID` is used verbatim as access
token. -/
def processDirectInstallationData (now : Nat) (d : DirectInstallData) : TokenData :=
  { access_token := d.AUTH_ID
    refresh_token := d.REFRESH_ID
    expires_in := none
    expires_at := none
    domain := d.DOMAIN
    scope := none
    client_endpoint := none
    server_endpoint := none
    member_id := d.member_id
    status := d.status
    application_token := none
    method := "simplified_auth"
    created_at := now
    updated_at := now }

/-! ### Refresh (`Bitrix24NewService.refreshTokenIfNeeded`) -/

/-- Success body of a `grant_type=refresh_token` exchange. -/
structure RefreshResponse where
  access_token : String
  refresh_token : Option String
  expires_in : Nat
  deriving Repr, DecidableEq

/-- JS `newTokenData.refresh_token || token.refresh_token`: the new value
wins unless it is `undefined` or the empty string (both falsy). -/
def jsStrOr (x : Option String) (d : Option String) : Option String :=
  match x with
  | some s => if s == "" then d else some s
  | none => d

/-- The patch object `updatedToken` built by
`Bitrix24NewService.refreshTokenIfNeeded` (src/unnamed/part_002 lines
608-622): exactly the fields `access_token`, `refresh_token`, `expires_in`,
`expires_at`, `updated_at`. -/
structure TokenUpdatePatch where
  access_token : String
  refresh_token : Option String
  expires_in : Nat
  expires_at : Nat
  updated_at : Nat
  deriving Repr, DecidableEq

/-- `DatabaseService.updateToken` (file backend, src/src/services/
database.service.js lines 101-123): spread-merge
`{...currentToken, ...updates, updated_at: now}` — the patched fields
overwrite, every other field of the current token is kept. -/
def updateTokenMerge (t : TokenData) (u : TokenUpdatePatch) (now : Nat) : TokenData :=
  { t with
    access_token := u.access_token
    refresh_token := u.refresh_token
    expires_in := some u.expires_in
    expires_at := some u.expires_at
    updated_at := now }

/-- The patch computed from a successful refresh exchange at time `now`:
`expires_at = now + expires_in` (no fallback on the refresh path), and the
stored refresh token is kept when the response omits one. -/
def refreshPatch (now : Nat) (t : TokenData) (r : RefreshResponse) : TokenUpdatePatch :=
  { access_token := r.access_token
    refresh_token := jsStrOr r.refresh_token t.refresh_token
    expires_in := r.expires_in
    expires_at := now + r.expires_in
    updated_at := now }

/-- The record stored after a successful refresh. -/
def refreshedToken (now : Nat) (t : TokenData) (r : RefreshResponse) : TokenData :=
  updateTokenMerge t (refreshPatch now t r) now

/-- Observable outcome of one `refreshTokenIfNeeded` invocation. -/
inductive RefreshOutcome where
  /-- the function threw (rejected) with this message -/
  | threw (msg : String)
  /-- returned `{refreshed:false}` with the still-valid message -/
  | notNeeded
  /-- returned `{refreshed:true, ...}` after storing the updated record -/
  | refreshedTo (t : TokenData)
  deriving Repr, DecidableEq

/-- One invocation: whether an HTTP refresh request was sent to the provider,
and the outcome. -/
structure RefreshStep where
  requestSent : Bool
  outcome : RefreshOutcome
  deriving Repr, DecidableEq

/-- `Bitrix24NewService.refreshTokenIfNeeded(force)` (src/unnamed/part_002
lines 565-642).  `token` is the currently stored record (`null` when absent);
`resp` is what the provider would answer were the request sent (`.error` =
an `error` field in the response body).  There is no check of
`token.method` and no check that `refresh_token` is non-null: whenever
`force || isExpired`, the POST is sent. -/
def refreshTokenIfNeeded (now : Nat) (token : Option TokenData) (force : Bool)
    (resp : Except String RefreshResponse) : RefreshStep :=
  match token with
  | none => { requestSent := false, outcome := .threw "No token available for refresh" }
  | some t =>
    let isExpired := tokenIsExpired now t
    if !(force || isExpired) then
      { requestSent := false, outcome := .notNeeded }
    else
      match resp with
      | .error e =>
        { requestSent := true, outcome := .threw ("Token refresh error: " ++ e) }
      | .ok r =>
        { requestSent := true, outcome := .refreshedTo (refreshedToken now t r) }

/-- `Bitrix24OAuth.refreshAccessToken` (src/src/services/bitrix24OAuth.js
lines 223-237) guard only: with no in-memory refresh token it returns
`{success:false}` with the no-refresh-token message, without sending a
request; otherwise the request is sent. -/
def oauthRefreshSendsRequest (refreshToken : Option String) : Bool :=
  match refreshToken with
  | none => false
  | some s => !(s == "")

/-! ### Authenticated call executor (`Bitrix24NewService.callBitrixAPI`) -/

/-- What one HTTP POST of the API call produces. -/
inductive HttpOutcome where
  /-- 200 response whose body has no `error` field -/
  | ok
  /-- 200 response whose body has `error` set to this string -/
  | apiError (e : String)
  /-- the POST threw: `some s` = HTTP error status `s`, `none` = network
  error (no response object) -/
  | httpThrow (status : Option Nat)
  deriving Repr, DecidableEq

/-- Retry configuration (src/src/config/config.js lines 40-41: defaults
`retryAttempts = 3`, `retryDelay = 1000`). -/
structure CallConfig where
  retryAttempts : Nat
  retryDelay : Nat
  deriving Repr, DecidableEq

/-- Case-insensitive substring membership of each listed token error, as in
`Bitrix24NewService.isTokenError` (src/unnamed/part_002). -/
def listPrefixOf : List Char → List Char → Bool
  | [], _ => true
  | _ :: _, [] => false
  | a :: as, b :: bs => a == b && listPrefixOf as bs

/-- `needle` occurs as a contiguous run inside `hay`. -/
def listHasSub (needle : List Char) : List Char → Bool
  | [] => listPrefixOf needle []
  | c :: t => listPrefixOf needle (c :: t) || listHasSub needle t

/-- String-level substring test (JS `String.prototype.includes`). -/
def strHasSub (needle hay : String) : Bool :=
  listHasSub needle.toList hay.toList

/-- ASCII lower-casing of a character (JS `toLowerCase` on the ASCII error
codes involved). -/
def lowerChar (c : Char) : Char :=
  if 65 ≤ c.toNat && c.toNat ≤ 90 then Char.ofNat (c.toNat + 32) else c

/-- `Bitrix24NewService.isTokenError` (src/unnamed/part_002 lines 779-789):
case-insensitive substring test of each listed error code. -/
def isTokenError (e : String) : Bool :=
  ["expired_token", "invalid_token", "WRONG_AUTH_TYPE", "unauthorized"].any
    fun te => listHasSub (te.toList.map lowerChar) (e.toList.map lowerChar)

/-- `Bitrix24NewService.isRetryableError` (src/unnamed/part_002 lines
793-798) on the optional HTTP status of the thrown error: no response (network
error) is retryable, otherwise status `>= 500` or `== 429`. -/
def isRetryableStatus (status : Option Nat) : Bool :=
  match status with
  | none => true
  | some st => decide (st ≥ 500) || st == 429

/-- Final result of `callBitrixAPI`. -/
inductive CallResult where
  /-- returned an `ApiResponse` with `success:true` -/
  | success
  /-- threw with this message -/
  | failure (msg : String)
  /-- the `while` loop exited without returning (only when
  `retryAttempts = 0`) -/
  | undef
  deriving Repr, DecidableEq

/-- Trace of one `callBitrixAPI` run: how many POSTs were made, how many
token-error-triggered forced refreshes, the backoff sleeps performed (in
order), and the result. -/
structure CallTrace where
  posts : Nat
  forcedRefreshes : Nat
  preRefreshes : Nat
  delays : List Nat
  result : CallResult
  deriving Repr, DecidableEq

/-- One loop iteration plus the `catch` classification, structured on fuel.
`provider n` is the outcome of the `n`-th POST (1-based).  `attempt` is the
loop counter; `expired` records whether the stored token currently fails the
pre-check (after a pre-check refresh the reloaded token is fresh, so the flag
drops to `false`).  The model covers tokens whose `method` is `oauth2` —
a `simplified_auth` token returns through
`callBitrixAPIWithSimplifiedAuth` before any of this logic and is not
modelled by the loop. -/
def callLoop (cfg : CallConfig) (provider : Nat → HttpOutcome) (method : String) :
    Nat → Nat → Bool → Nat → Nat → Nat → List Nat → CallTrace
  | 0, _, _, posts, refs, pre, delays =>
    { posts := posts, forcedRefreshes := refs, preRefreshes := pre,
      delays := delays, result := .undef }
  | fuel + 1, attempt, expired, posts, refs, pre, delays =>
    if attempt > cfg.retryAttempts then
      { posts := posts, forcedRefreshes := refs, preRefreshes := pre,
        delays := delays, result := .undef }
    else
      -- pre-check refresh for an expired oauth2 token (not a forced one:
      -- `refreshTokenIfNeeded()` without `force`); the reloaded token is
      -- fresh, so the flag drops
      let pre := if method == "oauth2" && expired then pre + 1 else pre
      let expired := if method == "oauth2" then false else expired
      let posts := posts + 1
      match provider posts with
      | .ok =>
        { posts := posts, forcedRefreshes := refs, preRefreshes := pre,
          delays := delays, result := .success }
      | .apiError e =>
        if isTokenError e && decide (attempt < cfg.retryAttempts) && method == "oauth2" then
          -- forced refresh, immediate retry (no sleep)
          callLoop cfg provider method fuel (attempt + 1) expired posts (refs + 1) pre delays
        else
          -- the thrown Bitrix24-API-error `Error` — a plain Error
          -- with no `response`, so the catch sees a retryable error
          if attempt == cfg.retryAttempts || !isRetryableStatus none then
            { posts := posts, forcedRefreshes := refs, preRefreshes := pre, delays := delays,
              result := .failure ("Bitrix24 API call failed: Bitrix24 API error: " ++ e) }
          else
            callLoop cfg provider method fuel (attempt + 1) expired posts refs pre
              (delays ++ [cfg.retryDelay * attempt])
      | .httpThrow status =>
        if attempt == cfg.retryAttempts || !isRetryableStatus status then
          { posts := posts, forcedRefreshes := refs, preRefreshes := pre, delays := delays,
            result := .failure "Bitrix24 API call failed: request error" }
        else
          callLoop cfg provider method fuel (attempt + 1) expired posts refs pre
            (delays ++ [cfg.retryDelay * attempt])

/-- `Bitrix24NewService.callBitrixAPI` (src/unnamed/part_002 lines 646-777)
for an oauth2-method token: the loop starts at `attempt = 1` and each
iteration increments `attempt`, so `retryAttempts` iterations of fuel
suffice. -/
def callBitrixAPI (cfg : CallConfig) (provider : Nat → HttpOutcome)
    (expired : Bool) : CallTrace :=
  callLoop cfg provider "oauth2" cfg.retryAttempts 1 expired 0 0 0 []

/-- The body path of `Bitrix24OAuth.makeApiCall` (src/src/services/
bitrix24OAuth.js lines 343-359): on a token error in the response body it
refreshes and then calls itself recursively with no attempt counter, so as
long as the refresh succeeds every attempt is followed by another one.
`fuel` bounds the recursion for the embedding only; the result is the number
of POSTs made and the outcome (`.undef` = still recursing when fuel ran
out). -/
def makeApiCallRec (provider : Nat → HttpOutcome) (refreshOk : Bool) :
    Nat → Nat → (Nat × CallResult)
  | 0, posts => (posts, .undef)
  | fuel + 1, posts =>
    let posts := posts + 1
    match provider posts with
    | .ok => (posts, .success)
    | .apiError e =>
      if e == "expired_token" || e == "invalid_token" || e == "WRONG_AUTH_TYPE" then
        if refreshOk then
          makeApiCallRec provider refreshOk fuel posts
        else
          (posts, .failure "Failed to refresh access token")
      else
        (posts, .failure ("Bitrix24 API error: " ++ e))
    | .httpThrow _ => (posts, .failure "request error")

/-! ### Token stores -/

/-- The file-backed store (src/src/services/database.service.js and the
`TokenStore` of src/unnamed/part_004) holds one JSON document: the whole
file is rewritten on every save.  `none` = no token file. -/
abbrev FileStore := Option TokenData

/-- `DatabaseService.saveToken` (file): `fs.writeFileSync` replaces the
entire file contents with the one new record; the `catch` turns an I/O
failure into a normal `false` return (the old contents stay).  The result
is never an exception. -/
def fileSaveToken (fsOk : Bool) (st : FileStore) (t : TokenData) :
    FileStore × Except String Bool :=
  if fsOk then (some t, .ok true) else (st, .ok false)

/-- The date revival `DatabaseService.getCurrentToken` performs on the
parsed record (src/src/services/database.service.js line 67):
`expires_at: new Date(data.expires_at)` is UNCONDITIONAL, and in JS
`new Date(null)` is the epoch — a valid, truthy `Date`.  So a stored null
expiry comes back as `some 0`; a stored ISO timestamp round-trips
unchanged (`created_at`/`updated_at` are always non-null and also
round-trip, identity in this model). -/
def reviveDates (t : TokenData) : TokenData :=
  { t with expires_at := some (t.expires_at.getD 0) }

/-- `DatabaseService.getCurrentToken` (file): parses the single stored
record and revives its dates (`new Date(data.expires_at)`, turning a
stored `null` into the epoch); the `catch` turns an I/O failure into a
normal `null` return. -/
def fileGetCurrentToken (fsOk : Bool) (st : FileStore) :
    Except String (Option TokenData) :=
  if fsOk then .ok (st.map reviveDates) else .ok none

/-- `refreshTokenIfNeeded` as actually invoked: it loads the current token
itself via `this.databaseService.getCurrentToken()` (src/unnamed/part_002
line 567), so the record it classifies is the revived one. -/
def refreshFromStore (now : Nat) (fsOk : Bool) (st : FileStore) (force : Bool)
    (resp : Except String RefreshResponse) : RefreshStep :=
  match fileGetCurrentToken fsOk st with
  | .ok tok => refreshTokenIfNeeded now tok force resp
  | .error e => { requestSent := false, outcome := .threw e }

/-- `DatabaseService.deleteToken` (file): unlinks the file when it exists
(returning `true`), returns `false` when it does not, and the `catch` turns
an I/O failure into a normal `false` return. -/
def fileDeleteToken (fsOk : Bool) (st : FileStore) :
    FileStore × Except String Bool :=
  match st with
  | some _ => if fsOk then (none, .ok true) else (st, .ok false)
  | none => (none, .ok false)

/-- `DatabaseService.clearAllTokens` (file) just delegates to
`deleteToken(0)`. -/
def fileClearAllTokens (fsOk : Bool) (st : FileStore) :
    FileStore × Except String Bool :=
  fileDeleteToken fsOk st

/-- `TokenStore.clearTokens` (src/unnamed/part_004 lines 542-555): unlinks
the file when present and returns `true` whether or not it existed; the
`catch` turns an I/O failure into `false`. -/
def tokenStoreClearTokens (fsOk : Bool) (st : FileStore) :
    FileStore × Except String Bool :=
  match st with
  | some _ => if fsOk then (none, .ok true) else (st, .ok false)
  | none => (none, .ok true)

/-- `TokenStore.saveTokens` (src/unnamed/part_004 lines 454-487): rewrites
the whole file; the `catch` returns `false` on I/O failure. -/
def tokenStoreSaveTokens (fsOk : Bool) (st : FileStore) (t : TokenData) :
    FileStore × Except String Bool :=
  if fsOk then (some t, .ok true) else (st, .ok false)

/-- `TokenStore.loadTokens` (src/unnamed/part_004 lines 493-537): the
`catch` returns `null` on I/O failure. -/
def tokenStoreLoadTokens (fsOk : Bool) (st : FileStore) :
    Except String (Option TokenData) :=
  if fsOk then .ok st else .ok none

/-- The SQLite-backed store (src/src/services/bitrix24.js): a `tokens`
table.  Rows are kept in insertion order. -/
abbrev SqliteStore := List TokenData

/-- SQLite `DatabaseService.saveToken` (src/src/services/bitrix24.js lines
780-825): a plain `INSERT INTO tokens ...` — the new row is appended and
prior rows stay; a database error rejects. -/
def sqliteSaveToken (dbOk : Bool) (st : SqliteStore) (t : TokenData) :
    SqliteStore × Except String Unit :=
  if dbOk then (st ++ [t], .ok ()) else (st, .error "db error")

/-- `SELECT * FROM tokens ORDER BY created_at DESC LIMIT 1`: a row whose
`created_at` is maximal (SQLite picks one; with strictly increasing
`created_at` it is unique). -/
def sqliteLatest : SqliteStore → Option TokenData
  | [] => none
  | t :: ts =>
    match sqliteLatest ts with
    | none => some t
    | some u => if u.created_at > t.created_at then some u else some t

/-- SQLite `DatabaseService.getCurrentToken` (src/src/services/bitrix24.js
lines 828-882): most recent row by `created_at`, `null` when the table is
empty; a database error rejects. -/
def sqliteGetCurrentToken (dbOk : Bool) (st : SqliteStore) :
    Except String (Option TokenData) :=
  if dbOk then .ok (sqliteLatest st) else .error "db error"

/-- SQLite `DatabaseService.clearAllTokens` (src/src/services/bitrix24.js
lines 1037-1054): `DELETE FROM tokens`, resolving `true`; a database error
rejects. -/
def sqliteClearAllTokens (dbOk : Bool) (st : SqliteStore) :
    SqliteStore × Except String Bool :=
  if dbOk then ([], .ok true) else (st, .error "db error")

/-! ### Authorization URLs -/

/-- One hex digit. -/
def hexDigit (n : Nat) : Char :=
  if n < 10 then Char.ofNat (48 + n) else Char.ofNat (55 + n)

/-- `%HH` for one byte. -/
def percentByte (b : Nat) : String :=
  String.mk ['%', hexDigit (b / 16 % 16), hexDigit (b % 16)]

/-- UTF-8 bytes of one character. -/
def utf8Bytes (c : Char) : List Nat :=
  let n := c.toNat
  if n < 128 then [n]
  else if n < 2048 then [192 + n / 64, 128 + n % 64]
  else if n < 65536 then [224 + n / 4096, 128 + n / 64 % 64, 128 + n % 64]
  else [240 + n / 262144, 128 + n / 4096 % 64, 128 + n / 64 % 64, 128 + n % 64]

/-- Characters `encodeURIComponent` leaves unescaped:
`A-Z a-z 0-9 - _ . ! ~ *`, the apostrophe, and parentheses. -/
def uriUnreserved (c : Char) : Bool :=
  c.isAlphanum || c == '-' || c == '_' || c == '.' || c == '!' ||
    c == '~' || c == '*' || c == '\x27' || c == '(' || c == ')'

/-- JS `encodeURIComponent`. -/
def encodeURIComponent (s : String) : String :=
  s.toList.foldl
    (fun acc c =>
      if uriUnreserved c then acc.push c
      else acc ++ String.join ((utf8Bytes c).map percentByte))
    ""

/-- `URLSearchParams` serialization of one value
(`application/x-www-form-urlencoded`): space becomes `+`, the unescaped set
is `A-Z a-z 0-9 - _ . *`. -/
def formEncode (s : String) : String :=
  s.toList.foldl
    (fun acc c =>
      if c == ' ' then acc.push '+'
      else if c.isAlphanum || c == '-' || c == '_' || c == '.' || c == '*' then acc.push c
      else acc ++ String.join ((utf8Bytes c).map percentByte))
    ""

/-- `Bitrix24NewService.getAuthorizationUrl` (src/unnamed/part_002 lines
373-397): string-concatenated URL with `client_id`, `response_type=code`,
`redirect_uri` (URI-encoded), `state` (URI-encoded) and the fixed
`scope=crm`. -/
def newServiceAuthUrl (clientId redirectUri : String) (domain state : String) : String :=
  "https://" ++ domain ++ "/oauth/authorize/" ++
    "?client_id=" ++ clientId ++
    "&response_type=code" ++
    "&redirect_uri=" ++ encodeURIComponent redirectUri ++
    "&state=" ++ encodeURIComponent state ++
    "&scope=crm"

/-- `Bitrix24OAuth.getAuthorizationUrl` (src/src/services/bitrix24OAuth.js
lines 24-45): `URLSearchParams({client_id, state})` — only those two query
parameters. -/
def oauthAuthUrl (clientId : String) (domain state : String) : String :=
  "https://" ++ domain ++ "/oauth/authorize/?" ++
    "client_id=" ++ formEncode clientId ++ "&state=" ++ formEncode state

/-! ### Concrete fixtures used by counterexamples and witnesses -/

/-- An oauth2 record expiring at time 100. -/
def tok100 : TokenData :=
  { access_token := "T1"
    refresh_token := some "R1"
    expires_in := some 3600
    expires_at := some 100
    domain := "ex.bitrix24.vn"
    scope := some "crm"
    client_endpoint := some "https://ex.bitrix24.vn/rest/"
    server_endpoint := some "https://oauth.bitrix.info/rest/"
    member_id := some "m1"
    status := some "L"
    application_token := some "app1"
    method := "oauth2"
    created_at := 0
    updated_at := 0 }

/-- A direct-installation (simplified) payload with a `REFRESH_ID`. -/
def directData : DirectInstallData :=
  { AUTH_ID := "AUTH123"
    REFRESH_ID := some "REFRESH123"
    DOMAIN := "tenant-a.bitrix24.vn"
    member_id := some "m2"
    status := some "F" }

/-- The stored simplified credential. -/
def simpTok : TokenData := processDirectInstallationData 10 directData

/-- A refresh exchange answer. -/
def resp1 : RefreshResponse :=
  { access_token := "T2", refresh_token := some "R2", expires_in := 3600 }

/-- A refresh exchange answer that omits the rotated refresh token. -/
def respNoRT : RefreshResponse :=
  { access_token := "T3", refresh_token := none, expires_in := 7200 }

/-- An `ONAPPINSTALL` auth payload whose `expires_in` is `0`. -/
def authZero : InstallAuth :=
  { access_token := "TZ"
    refresh_token := some "RZ"
    expires_in := some 0
    domain := "z.bitrix24.vn"
    scope := some "crm"
    client_endpoint := none
    server_endpoint := none
    member_id := none
    status := none
    application_token := none }

/-- An `ONAPPINSTALL` auth payload with `expires_in = 60`. -/
def auth60 : InstallAuth :=
  { access_token := "T60"
    refresh_token := some "R60"
    expires_in := some 60
    domain := "s.bitrix24.vn"
    scope := some "crm"
    client_endpoint := none
    server_endpoint := none
    member_id := none
    status := none
    application_token := none }

/-- A second record, created after `tok100`. -/
def tokB : TokenData :=
  { tok100 with access_token := "TB", created_at := 50, updated_at := 50 }

/-- `N` sequential `saveToken` calls against the file store (each one a
whole-file rewrite with I/O succeeding). -/
def fileSaveAll (ts : List TokenData) (st : FileStore) : FileStore :=
  ts.foldl (fun s t => (fileSaveToken true s t).1) st

/-! ### Helper lemmas -/

theorem listPrefixOf_self_append (l t : List Char) : listPrefixOf l (l ++ t) = true := by
  induction l with
  | nil => rfl
  | cons c cs ih => simp [listPrefixOf, ih]

theorem listHasSub_head (n t : List Char) : listHasSub n (n ++ t) = true := by
  cases n with
  | nil =>
    cases t with
    | nil => rfl
    | cons c cs => simp [listHasSub, listPrefixOf]
  | cons c cs =>
    simp only [List.cons_append, listHasSub, Bool.or_eq_true]
    exact Or.inl (by simp [listPrefixOf, listPrefixOf_self_append])

theorem listHasSub_cons_of (n : List Char) (c : Char) (t : List Char)
    (h : listHasSub n t = true) : listHasSub n (c :: t) = true := by
  cases n with
  | nil => simp [listHasSub, listPrefixOf]
  | cons a as => simp [listHasSub, h]

theorem listHasSub_append_right (n a t : List Char)
    (h : listHasSub n t = true) : listHasSub n (a ++ t) = true := by
  induction a with
  | nil => simpa using h
  | cons c cs ih => exact listHasSub_cons_of n c (cs ++ t) ih

theorem toList_append (a b : String) : (a ++ b).toList = a.toList ++ b.toList := by
  cases a; cases b; rfl

theorem listHasSub_self (l : List Char) : listHasSub l l = true := by
  have h := listHasSub_head l []
  simpa using h

theorem listPrefixOf_assoc3 (a b c t : List Char) :
    listPrefixOf (a ++ (b ++ c)) (a ++ (b ++ (c ++ t))) = true := by
  have h := listPrefixOf_self_append (a ++ (b ++ c)) t
  simpa [List.append_assoc] using h

theorem sqliteLatest_append_last (st : SqliteStore) (t : TokenData)
    (h : ∀ u ∈ st, u.created_at < t.created_at) :
    sqliteLatest (st ++ [t]) = some t := by
  induction st with
  | nil => rfl
  | cons u st ih =>
    have hu : u.created_at < t.created_at := h u (by simp)
    have ht : sqliteLatest (st ++ [t]) = some t :=
      ih (fun v hv => h v (by simp [hv]))
    simp [sqliteLatest, ht, hu]

/-! ## Claim C1

The spec says `getValidCredential` classifies a record as expired iff
`now >= expiresAt`, with no grace window.  The code compares strictly
(`now > token.expires_at`), so at the very expiry instant the record is
still treated as valid.  Corrected to a strict comparison. -/

/-- C1 counterexample: at `now = expiresAt = 100` the claimed classification
(`expired iff now ≥ expiresAt`) is false of the code — `tokenIsExpired`
returns `false` although `100 ≥ 100`. -/
theorem C1_counterexample :
    ¬ (tokenIsExpired 100 tok100 = true ↔ 100 ≥ 100) := by
  decide

/-- C1 amended: for a record with a non-null `expiresAt`, the lifecycle code
classifies it as expired — and the API-call pre-check and the non-forced
refresh trigger a refresh request — exactly when `now > expiresAt`
(strictly); at `now ≤ expiresAt`, including the expiry instant itself, the
record is treated as valid and returned unchanged. -/
theorem C1_strict_expiry (now e : Nat) (t : TokenData)
    (resp : Except String RefreshResponse)
    (he : t.expires_at = some e) (hm : t.method = "oauth2") :
    (tokenIsExpired now t = true ↔ e < now) ∧
    (callPreCheckRefresh now t = true ↔ e < now) ∧
    ((refreshTokenIfNeeded now (some t) false resp).requestSent = true ↔ e < now) ∧
    (now ≤ e →
      tokenIsExpired now t = false ∧
      callPreCheckRefresh now t = false ∧
      refreshTokenIfNeeded now (some t) false resp
        = { requestSent := false, outcome := .notNeeded }) := by
  have hexp : tokenIsExpired now t = decide (e < now) := by
    simp [tokenIsExpired, he]
  have hpre : callPreCheckRefresh now t = decide (e < now) := by
    simp [callPreCheckRefresh, he, hm]
  refine ⟨by simp [hexp], by simp [hpre], ?_, ?_⟩
  · by_cases h : e < now
    · have hd : decide (e < now) = true := decide_eq_true h
      cases resp <;> simp [refreshTokenIfNeeded, hexp, hd, h]
    · simp [refreshTokenIfNeeded, hexp, h]
  · intro hle
    have h : ¬ e < now := Nat.not_lt.mpr hle
    refine ⟨by simp [hexp, h], by simp [hpre, h], ?_⟩
    simp [refreshTokenIfNeeded, hexp, h]

/-- C1 witness: the amended theorem applied at `now = 101`,
`expiresAt = 100`, the record `tok100`. -/
theorem C1_strict_expiry_witness :
    (tokenIsExpired 101 tok100 = true ↔ 100 < 101) ∧
    (callPreCheckRefresh 101 tok100 = true ↔ 100 < 101) ∧
    ((refreshTokenIfNeeded 101 (some tok100) false (.ok resp1)).requestSent = true ↔ 100 < 101) ∧
    (101 ≤ 100 →
      tokenIsExpired 101 tok100 = false ∧
      callPreCheckRefresh 101 tok100 = false ∧
      refreshTokenIfNeeded 101 (some tok100) false (.ok resp1)
        = { requestSent := false, outcome := .notNeeded }) :=
  C1_strict_expiry 101 100 tok100 (.ok resp1) rfl rfl

/-! ## Claim C2

The spec says a provider-reported token error triggers one forced refresh
and exactly one retry, a second token error being terminal with no third
attempt.  `Bitrix24NewService.callBitrixAPI` instead retries a token error
whenever `attempt < retryAttempts`: with the default `retryAttempts = 3` a
persistent token error produces three attempts and two forced refreshes,
and `Bitrix24OAuth.makeApiCall` retries recursively with no counter at
all.  Corrected. -/

/-- C2 counterexample: with the default configuration and a provider that
reports `expired_token` on every attempt, the executor makes a third
attempt — the claimed single retry with no third attempt bounds the
POST count by 2, but the trace shows 3. -/
theorem C2_counterexample :
    ¬ ((callBitrixAPI ⟨3, 1000⟩ (fun _ => .apiError "expired_token") false).posts ≤ 2) := by
  decide

/-- C2 amended: a provider-reported token error forces a refresh and an
immediate retry as long as the attempt counter is below `retryAttempts`;
with the default `retryAttempts = 3` a persistent token error yields exactly
three attempts and two forced refreshes before the terminal error, a token
error followed by success yields two attempts and one refresh, and the
recursive `Bitrix24OAuth.makeApiCall` path performs as many attempts as
there is fuel (no bound) while refreshes keep succeeding. -/
theorem C2_token_retry_bound :
    (callBitrixAPI ⟨3, 1000⟩ (fun _ => .apiError "expired_token") false
      = { posts := 3, forcedRefreshes := 2, preRefreshes := 0, delays := [],
          result := .failure "Bitrix24 API call failed: Bitrix24 API error: expired_token" }) ∧
    (callBitrixAPI ⟨3, 1000⟩ (fun n => if n = 1 then .apiError "expired_token" else .ok) false
      = { posts := 2, forcedRefreshes := 1, preRefreshes := 0, delays := [],
          result := .success }) ∧
    (∀ fuel, makeApiCallRec (fun _ => .apiError "expired_token") true fuel 0
      = (fuel, .undef)) := by
  refine ⟨by decide, by decide, ?_⟩
  have key : ∀ fuel posts,
      makeApiCallRec (fun _ => .apiError "expired_token") true fuel posts
        = (posts + fuel, .undef) := by
    intro fuel
    induction fuel with
    | zero => intro posts; simp [makeApiCallRec]
    | succ n ih =>
      intro posts
      simp only [makeApiCallRec, ih]
      simp
      omega
  intro fuel
  simpa using key fuel 0

/-! ## Claim C3

The spec says a `simplified_auth` credential is never classified as expired
and that refreshing it always fails with `NoRefreshTokenError`, with no
refresh request ever sent.  Neither half survives the real pipeline.  The
acquirer does store `expires_at = null`, and the API-call path never
refreshes a simplified token (its branch returns before any expiry check);
but the file-backed `getCurrentToken` revives the stored null
UNCONDITIONALLY as `new Date(null)` — the truthy epoch date — and
`getTokenStatus`/`refreshTokenIfNeeded` both reload the token from that
store, so a persisted simplified credential IS classified as expired at any
post-epoch time, and a NON-forced `refreshTokenIfNeeded` proceeds to send
the refresh POST (there is no method check and no `NoRefreshTokenError`
anywhere in it).  Corrected. -/

/-- C3 counterexample: the persisted-then-reloaded simplified credential
comes back with the epoch expiry, is classified as expired at time
`999999`, and a NON-forced refresh on the store sends the exchange request
and succeeds — it neither skips the request nor raises. -/
theorem C3_counterexample :
    fileGetCurrentToken true ((fileSaveToken true none simpTok).1)
      = .ok (some (reviveDates simpTok)) ∧
    (reviveDates simpTok).expires_at = some 0 ∧
    tokenIsExpired 999999 (reviveDates simpTok) = true ∧
    (refreshFromStore 999999 true ((fileSaveToken true none simpTok).1) false
        (.ok resp1)).requestSent = true ∧
    (refreshFromStore 999999 true ((fileSaveToken true none simpTok).1) false
        (.ok resp1)).outcome
      = .refreshedTo (refreshedToken 999999 (reviveDates simpTok) resp1) := by
  refine ⟨rfl, by decide, by decide, by decide, by decide⟩

/-- C3 amended: the simplified acquirer stores `method = "simplified_auth"`
and `expires_at = null`, and the in-memory record is not expired and never
triggers the API-call expiry pre-check; but the file-backed load revives
the stored null expiry as the epoch (`some 0`), so once persisted the
credential is classified as expired at every positive time and a
NON-forced `refreshTokenIfNeeded` — which reloads the token itself — sends
the refresh request and patches the record, raising no
`NoRefreshTokenError`; only the separate `Bitrix24OAuth.refreshAccessToken`
refuses (without a request) when its in-memory refresh token is absent. -/
theorem C3_simplified_epoch_revival (now acqTime : Nat) (d : DirectInstallData)
    (r : RefreshResponse) (hnow : 0 < now) :
    (processDirectInstallationData acqTime d).method = "simplified_auth" ∧
    (processDirectInstallationData acqTime d).expires_at = none ∧
    tokenIsExpired now (processDirectInstallationData acqTime d) = false ∧
    callPreCheckRefresh now (processDirectInstallationData acqTime d) = false ∧
    callPreCheckRefresh now (reviveDates (processDirectInstallationData acqTime d)) = false ∧
    fileGetCurrentToken true
        ((fileSaveToken true none (processDirectInstallationData acqTime d)).1)
      = .ok (some (reviveDates (processDirectInstallationData acqTime d))) ∧
    (reviveDates (processDirectInstallationData acqTime d)).expires_at = some 0 ∧
    tokenIsExpired now (reviveDates (processDirectInstallationData acqTime d)) = true ∧
    refreshFromStore now true
        ((fileSaveToken true none (processDirectInstallationData acqTime d)).1) false (.ok r)
      = { requestSent := true,
          outcome := .refreshedTo
            (refreshedToken now (reviveDates (processDirectInstallationData acqTime d)) r) } ∧
    oauthRefreshSendsRequest none = false := by
  have hd : decide (now > 0) = true := decide_eq_true hnow
  refine ⟨rfl, rfl, ?_, ?_, ?_, rfl, rfl, ?_, ?_, rfl⟩
  · simp [tokenIsExpired, processDirectInstallationData]
  · simp [callPreCheckRefresh, processDirectInstallationData]
  · simp [callPreCheckRefresh, reviveDates, processDirectInstallationData]
  · simp [tokenIsExpired, reviveDates, processDirectInstallationData, hd]
  · simp [refreshFromStore, fileGetCurrentToken, fileSaveToken, refreshTokenIfNeeded,
      tokenIsExpired, reviveDates, processDirectInstallationData, hd]

/-- C3 witness: the amended theorem applied to the concrete installation
payload `directData` at acquisition time `10`, current time `999999` and
the refresh answer `resp1`. -/
theorem C3_simplified_epoch_revival_witness :
    (processDirectInstallationData 10 directData).method = "simplified_auth" ∧
    (processDirectInstallationData 10 directData).expires_at = none ∧
    tokenIsExpired 999999 (processDirectInstallationData 10 directData) = false ∧
    callPreCheckRefresh 999999 (processDirectInstallationData 10 directData) = false ∧
    callPreCheckRefresh 999999 (reviveDates (processDirectInstallationData 10 directData)) = false ∧
    fileGetCurrentToken true
        ((fileSaveToken true none (processDirectInstallationData 10 directData)).1)
      = .ok (some (reviveDates (processDirectInstallationData 10 directData))) ∧
    (reviveDates (processDirectInstallationData 10 directData)).expires_at = some 0 ∧
    tokenIsExpired 999999 (reviveDates (processDirectInstallationData 10 directData)) = true ∧
    refreshFromStore 999999 true
        ((fileSaveToken true none (processDirectInstallationData 10 directData)).1) false
        (.ok resp1)
      = { requestSent := true,
          outcome := .refreshedTo
            (refreshedToken 999999
              (reviveDates (processDirectInstallationData 10 directData)) resp1) } ∧
    oauthRefreshSendsRequest none = false :=
  C3_simplified_epoch_revival 999999 10 directData resp1 (by decide)
/-! ## Claim C4

The spec says `expiresAt = issuedAt + N` for every acquisition or refresh
with `expires_in = N`, including `N = 0`.  Acquisition computes
`expires_in || 3600`, so `N = 0` (and an absent `expires_in`) stores
`issuedAt + 3600`; only the refresh path adds `N` directly.  Corrected. -/

/-- C4 counterexample: an `ONAPPINSTALL` acquisition at time `0` with
`expires_in = 0` stores `expiresAt = 3600`, not `issuedAt + 0 = 0` as the
claim requires. -/
theorem C4_counterexample :
    ¬ ((processONAPPINSTALLEvent 0 authZero).expires_at = some (0 + 0)) := by
  decide

/-- C4 amended: an acquisition with `expires_in = N` stores
`expiresAt = issuedAt + N` whenever `N ≠ 0`, and stores
`issuedAt + 3600` when `expires_in` is `0` or absent (the `|| 3600`
fallback); a refresh always stores `expiresAt = refreshTime + N`, including
`N = 0`. -/
theorem C4_expiry_derivation (now N : Nat) (a : InstallAuth) (t : TokenData)
    (r : RefreshResponse) :
    (a.expires_in = some N → N ≠ 0 →
      (processONAPPINSTALLEvent now a).expires_at = some (now + N)) ∧
    (a.expires_in = some 0 →
      (processONAPPINSTALLEvent now a).expires_at = some (now + 3600)) ∧
    (a.expires_in = none →
      (processONAPPINSTALLEvent now a).expires_at = some (now + 3600)) ∧
    (refreshedToken now t r).expires_at = some (now + r.expires_in) := by
  refine ⟨?_, ?_, ?_, rfl⟩
  · intro h hN
    simp [processONAPPINSTALLEvent, jsNumOr, h, hN]
  · intro h
    simp [processONAPPINSTALLEvent, jsNumOr, h]
  · intro h
    simp [processONAPPINSTALLEvent, jsNumOr, h]

/-- C4 witness: the amended theorem applied at acquisition time `5` with
`expires_in = 60` and a refresh at time `5` with `expires_in = 3600`. -/
theorem C4_expiry_derivation_witness :
    (processONAPPINSTALLEvent 5 auth60).expires_at = some (5 + 60) ∧
    (refreshedToken 5 tok100 resp1).expires_at = some (5 + 3600) := by
  have h := C4_expiry_derivation 5 60 auth60 tok100 resp1
  exact ⟨h.1 rfl (by decide), h.2.2.2⟩

/-! ## Claim C5

The spec says a new save supersedes the previous record, the store holding
no accumulated prior records.  The file-backed store rewrites the one JSON
document, but the SQLite store `INSERT`s a fresh row on every save and
`getCurrentToken` merely orders by `created_at` — prior rows accumulate.
Corrected. -/

/-- C5 counterexample: after two sequential SQLite saves the table is not
the single latest record — the first row is still there. -/
theorem C5_counterexample :
    ¬ ((sqliteSaveToken true ((sqliteSaveToken true [] tok100).1) tokB).1 = [tokB]) := by
  decide

/-- C5 amended: after `N` sequential saves `getCurrent` returns the `N`-th
record in both backends (for SQLite provided `created_at` is strictly
increasing; the file-backed load applies its unconditional date revival to
the returned record); the file store supersedes — it holds exactly the one
most recent record — while the SQLite store appends, holding all `N`
rows. -/
theorem C5_save_supersede :
    (∀ (st : FileStore) (ts : List TokenData) (t : TokenData),
      fileSaveAll (ts ++ [t]) st = some t ∧
      fileGetCurrentToken true (fileSaveAll (ts ++ [t]) st) = .ok (some (reviveDates t))) ∧
    (∀ (st : SqliteStore) (t : TokenData),
      (∀ u ∈ st, u.created_at < t.created_at) →
        sqliteGetCurrentToken true ((sqliteSaveToken true st t).1) = .ok (some t)) ∧
    (∀ (st : SqliteStore) (t : TokenData),
      ((sqliteSaveToken true st t).1).length = st.length + 1) := by
  refine ⟨?_, ?_, ?_⟩
  · intro st ts t
    have h : fileSaveAll (ts ++ [t]) st = some t := by
      simp [fileSaveAll, List.foldl_append, fileSaveToken]
    exact ⟨h, by simp [fileGetCurrentToken, h]⟩
  · intro st t h
    simp [sqliteGetCurrentToken, sqliteSaveToken, sqliteLatest_append_last st t h]
  · intro st t
    simp [sqliteSaveToken]

/-- C5 witness: the amended theorem applied to a prior row `tok100`
(created at `0`) and a new record `tokB` (created at `50`). -/
theorem C5_save_supersede_witness :
    fileSaveAll ([tok100] ++ [tokB]) none = some tokB ∧
    sqliteGetCurrentToken true ((sqliteSaveToken true [tok100] tokB).1) = .ok (some tokB) ∧
    ((sqliteSaveToken true [tok100] tokB).1).length = [tok100].length + 1 := by
  have h := C5_save_supersede
  exact ⟨(h.1 none [tok100] tokB).1, h.2.1 [tok100] tokB (by decide), h.2.2 [tok100] tokB⟩

/-! ## Claim C6

The spec says network/5xx/429 failures are retried with `retryDelay *
attempt` backoff up to the attempt limit, and that any other failure is not
retried under this rule.  The retryable classification and backoff match
the code, but `isRetryableError` treats any thrown error without an HTTP
`response` as a network error — and a provider-reported non-token
application error is re-thrown as a plain `Error` with no response, so it
IS retried under this very rule.  Corrected. -/

/-- C6 counterexample: a provider-reported application error
(`PARAM_ERROR`: neither a network failure nor 5xx nor 429) is retried —
the claim requires a single attempt with no backoff, but the executor posts
three times. -/
theorem C6_counterexample :
    ¬ ((callBitrixAPI ⟨3, 1000⟩ (fun _ => .apiError "PARAM_ERROR") false).posts = 1) := by
  decide

/-- C6 amended: a POST that throws is retried exactly when it carries no
HTTP response (network error) or its status is `≥ 500` or `429`, sleeping
`retryDelay * attempt` between attempts, up to `retryAttempts` (default 3)
attempts, after which a terminal error is surfaced; a POST throwing with
any other status is terminal at once; but a provider-reported non-token
application error, re-thrown as a plain `Error` without a response, is
classified like a network failure and retried with the same backoff. -/
theorem C6_retry_classification (d st : Nat) (status : Option Nat) :
    isRetryableStatus none = true ∧
    (st ≥ 500 → isRetryableStatus (some st) = true) ∧
    isRetryableStatus (some 429) = true ∧
    (st < 500 → st ≠ 429 → isRetryableStatus (some st) = false) ∧
    (isRetryableStatus status = true →
      callBitrixAPI ⟨3, d⟩ (fun _ => .httpThrow status) false
        = { posts := 3, forcedRefreshes := 0, preRefreshes := 0,
            delays := [d, d * 2],
            result := .failure "Bitrix24 API call failed: request error" }) ∧
    (isRetryableStatus status = false →
      callBitrixAPI ⟨3, d⟩ (fun _ => .httpThrow status) false
        = { posts := 1, forcedRefreshes := 0, preRefreshes := 0, delays := [],
            result := .failure "Bitrix24 API call failed: request error" }) ∧
    callBitrixAPI ⟨3, d⟩ (fun _ => .apiError "PARAM_ERROR") false
      = { posts := 3, forcedRefreshes := 0, preRefreshes := 0,
          delays := [d, d * 2],
          result := .failure
            "Bitrix24 API call failed: Bitrix24 API error: PARAM_ERROR" } := by
  have hPE : isTokenError "PARAM_ERROR" = false := by decide
  refine ⟨rfl, ?_, rfl, ?_, ?_, ?_, ?_⟩
  · intro h
    simp [isRetryableStatus, h]
  · intro h1 h2
    simp [isRetryableStatus, Nat.not_le.mpr h1, h2]
  · intro h
    simp [callBitrixAPI, callLoop, h]
  · intro h
    simp [callBitrixAPI, callLoop, h]
  · simp [callBitrixAPI, callLoop, hPE, isRetryableStatus]

/-- C6 witness: the amended theorem applied with `retryDelay = 1000`, a
retryable `503` and a non-retryable `404`. -/
theorem C6_retry_classification_witness :
    isRetryableStatus (some 503) = true ∧
    isRetryableStatus (some 404) = false ∧
    callBitrixAPI ⟨3, 1000⟩ (fun _ => .httpThrow (some 503)) false
      = { posts := 3, forcedRefreshes := 0, preRefreshes := 0,
          delays := [1000, 2000],
          result := .failure "Bitrix24 API call failed: request error" } ∧
    callBitrixAPI ⟨3, 1000⟩ (fun _ => .httpThrow (some 404)) false
      = { posts := 1, forcedRefreshes := 0, preRefreshes := 0, delays := [],
          result := .failure "Bitrix24 API call failed: request error" } := by
  have h1 := C6_retry_classification 1000 503 (some 503)
  have h2 := C6_retry_classification 1000 404 (some 404)
  exact ⟨h1.2.1 (by decide), h2.2.2.2.1 (by decide) (by decide),
    h1.2.2.2.2.1 (h1.2.1 (by decide)),
    h2.2.2.2.2.2.1 (h2.2.2.2.1 (by decide) (by decide))⟩

/-! ## Claim C7

The spec says every Token Store operation surfaces a `StorageError` on I/O
failure and never converts it into a normal return value.  The file-backed
`DatabaseService` and the `TokenStore` do the opposite: every `catch`
returns `false`, `null` or `true` as a normal value.  Only the SQLite
variants reject.  Corrected. -/

/-- C7 counterexample: with the underlying write failing, `saveToken`
returns the normal value `false` (leaving the old contents) and
`loadTokens` returns the normal value `null` — no error is surfaced. -/
theorem C7_counterexample :
    fileSaveToken false none tok100 = (none, .ok false) ∧
    fileGetCurrentToken false (some tok100) = .ok none ∧
    (tokenStoreSaveTokens false none tok100).2 = .ok false ∧
    tokenStoreLoadTokens false (some tok100) = .ok none :=
  ⟨rfl, rfl, rfl, rfl⟩

/-- C7 amended: on I/O failure the file-backed operations never surface an
error — `saveToken`, `deleteToken`, `clearAllTokens` and the `TokenStore`
variants return normal booleans and `getCurrentToken`/`loadTokens` return
`null` — while the SQLite operations do reject (surface the failure). -/
theorem C7_storage_error_swallowed (st : FileStore) (sq : SqliteStore) (t : TokenData) :
    (fileSaveToken false st t).2 = .ok false ∧
    fileGetCurrentToken false st = .ok none ∧
    (fileDeleteToken false st).2 = .ok false ∧
    (fileClearAllTokens false st).2 = .ok false ∧
    (tokenStoreSaveTokens false st t).2 = .ok false ∧
    tokenStoreLoadTokens false st = .ok none ∧
    (tokenStoreClearTokens false st).2 = .ok (!st.isSome) ∧
    (sqliteSaveToken false sq t).2 = .error "db error" ∧
    sqliteGetCurrentToken false sq = .error "db error" ∧
    (sqliteClearAllTokens false sq).2 = .error "db error" := by
  cases st <;>
    simp [fileSaveToken, fileGetCurrentToken, fileDeleteToken, fileClearAllTokens,
      tokenStoreSaveTokens, tokenStoreLoadTokens, tokenStoreClearTokens,
      sqliteSaveToken, sqliteGetCurrentToken, sqliteClearAllTokens]

/-! ## Claim C8

The spec says the produced authorization redirect URL is
`https://{tenant-domain}/oauth/authorize/` with `client_id`,
`response_type=code`, `redirect_uri`, `state` and `scope` parameters.
`Bitrix24NewService.getAuthorizationUrl` produces exactly that; the other
producer, `Bitrix24OAuth.getAuthorizationUrl`, serializes only
`{client_id, state}` — no `response_type`, `redirect_uri` or `scope`.
Corrected. -/

/-- C8 counterexample: the `Bitrix24OAuth` authorization URL for a concrete
tenant lacks the `response_type` parameter the claim requires of every
produced redirect URL. -/
theorem C8_counterexample :
    strHasSub "response_type" (oauthAuthUrl "app.123" "ex.bitrix24.vn" "state_1") = false := by
  decide

/-- C8 amended: for every tenant domain, the `Bitrix24NewService` URL has
the form `https://{domain}/oauth/authorize/` carrying `client_id`,
`response_type=code`, `redirect_uri`, `state` and the fixed `scope=crm`;
the `Bitrix24OAuth` URL has the same base but carries only `client_id` and
`state` (concretely, neither `response_type` nor `redirect_uri` nor
`scope`). -/
theorem C8_auth_url_params (clientId redirectUri domain state : String) :
    listPrefixOf ("https://" ++ domain ++ "/oauth/authorize/").toList
      (newServiceAuthUrl clientId redirectUri domain state).toList = true ∧
    strHasSub "?client_id=" (newServiceAuthUrl clientId redirectUri domain state) = true ∧
    strHasSub "&response_type=code" (newServiceAuthUrl clientId redirectUri domain state) = true ∧
    strHasSub "&redirect_uri=" (newServiceAuthUrl clientId redirectUri domain state) = true ∧
    strHasSub "&state=" (newServiceAuthUrl clientId redirectUri domain state) = true ∧
    strHasSub "&scope=crm" (newServiceAuthUrl clientId redirectUri domain state) = true ∧
    listPrefixOf ("https://" ++ domain ++ "/oauth/authorize/?").toList
      (oauthAuthUrl clientId domain state).toList = true ∧
    strHasSub "client_id=" (oauthAuthUrl clientId domain state) = true ∧
    strHasSub "&state=" (oauthAuthUrl clientId domain state) = true ∧
    strHasSub "response_type" (oauthAuthUrl "app.123" "ex.bitrix24.vn" "state_1") = false ∧
    strHasSub "redirect_uri" (oauthAuthUrl "app.123" "ex.bitrix24.vn" "state_1") = false ∧
    strHasSub "scope" (oauthAuthUrl "app.123" "ex.bitrix24.vn" "state_1") = false := by
  refine ⟨?_, ?_, ?_, ?_, ?_, ?_, ?_, ?_, ?_, by decide, by decide, by decide⟩
  · unfold newServiceAuthUrl
    simp only [toList_append, List.append_assoc]
    exact listPrefixOf_assoc3 _ _ _ _
  · unfold strHasSub newServiceAuthUrl
    simp only [toList_append, List.append_assoc]
    apply listHasSub_append_right
    apply listHasSub_append_right
    apply listHasSub_append_right
    exact listHasSub_head _ _
  · unfold strHasSub newServiceAuthUrl
    simp only [toList_append, List.append_assoc]
    apply listHasSub_append_right
    apply listHasSub_append_right
    apply listHasSub_append_right
    apply listHasSub_append_right
    apply listHasSub_append_right
    exact listHasSub_head _ _
  · unfold strHasSub newServiceAuthUrl
    simp only [toList_append, List.append_assoc]
    apply listHasSub_append_right
    apply listHasSub_append_right
    apply listHasSub_append_right
    apply listHasSub_append_right
    apply listHasSub_append_right
    apply listHasSub_append_right
    exact listHasSub_head _ _
  · unfold strHasSub newServiceAuthUrl
    simp only [toList_append, List.append_assoc]
    apply listHasSub_append_right
    apply listHasSub_append_right
    apply listHasSub_append_right
    apply listHasSub_append_right
    apply listHasSub_append_right
    apply listHasSub_append_right
    apply listHasSub_append_right
    apply listHasSub_append_right
    exact listHasSub_head _ _
  · unfold strHasSub newServiceAuthUrl
    simp only [toList_append, List.append_assoc]
    apply listHasSub_append_right
    apply listHasSub_append_right
    apply listHasSub_append_right
    apply listHasSub_append_right
    apply listHasSub_append_right
    apply listHasSub_append_right
    apply listHasSub_append_right
    apply listHasSub_append_right
    apply listHasSub_append_right
    apply listHasSub_append_right
    exact listHasSub_self _
  · unfold oauthAuthUrl
    simp only [toList_append, List.append_assoc]
    exact listPrefixOf_assoc3 _ _ _ _
  · unfold strHasSub oauthAuthUrl
    simp only [toList_append, List.append_assoc]
    apply listHasSub_append_right
    apply listHasSub_append_right
    apply listHasSub_append_right
    exact listHasSub_head _ _
  · unfold strHasSub oauthAuthUrl
    simp only [toList_append, List.append_assoc]
    apply listHasSub_append_right
    apply listHasSub_append_right
    apply listHasSub_append_right
    apply listHasSub_append_right
    apply listHasSub_append_right
    exact listHasSub_head _ _

/-! ## Claim C9

The clear-credentials operation, called twice in a row, never throws: the
first call removes any stored record, the second is a no-op, and both
return normally.  True of all three implementations (the file-backed ones
even swallow I/O failures).  Confirmed. -/

/-- C9: clearing twice never throws in any backend — the first call (with
I/O succeeding) leaves the store empty, the second call is a no-op
returning normally (`false` for `DatabaseService.deleteToken`, `true` for
`TokenStore.clearTokens` and the SQLite `clearAllTokens`), and even with
failing I/O the file-backed clears return an `.ok` value. -/
theorem C9_idempotent_clear (st : FileStore) (sq : SqliteStore) (fsOk : Bool) :
    (fileClearAllTokens true st).1 = none ∧
    fileClearAllTokens true ((fileClearAllTokens true st).1) = (none, .ok false) ∧
    ((fileClearAllTokens fsOk st).2 = .ok true ∨ (fileClearAllTokens fsOk st).2 = .ok false) ∧
    (tokenStoreClearTokens true st).1 = none ∧
    tokenStoreClearTokens true ((tokenStoreClearTokens true st).1) = (none, .ok true) ∧
    ((tokenStoreClearTokens fsOk st).2 = .ok true ∨
      (tokenStoreClearTokens fsOk st).2 = .ok false) ∧
    (sqliteClearAllTokens true sq).1 = [] ∧
    sqliteClearAllTokens true ((sqliteClearAllTokens true sq).1) = ([], .ok true) := by
  cases st <;> cases fsOk <;>
    simp [fileClearAllTokens, fileDeleteToken, tokenStoreClearTokens, sqliteClearAllTokens]

/-! ## Claim C10

A successful refresh patches only `access_token`, `refresh_token`,
`expires_in`, `expires_at`, `updated_at`; every other persisted field is
untouched, and an omitted `refresh_token` in the response keeps the stored
one.  Matches the `updatedToken` object of `refreshTokenIfNeeded` and the
spread-merge of `updateToken`.  Confirmed. -/

/-- C10: the refreshed record agrees with the pre-refresh record on
`domain`, `scope`, `client_endpoint`, `server_endpoint`, `member_id`,
`status`, `application_token`, `method` and `created_at`; the patched
fields take the values from the response (`expires_at = refreshTime +
expires_in`, `updated_at = refreshTime`); and when the response carries no
`refresh_token` the stored one is retained. -/
theorem C10_refresh_frame (now : Nat) (t : TokenData) (r : RefreshResponse) :
    (refreshedToken now t r).domain = t.domain ∧
    (refreshedToken now t r).scope = t.scope ∧
    (refreshedToken now t r).client_endpoint = t.client_endpoint ∧
    (refreshedToken now t r).server_endpoint = t.server_endpoint ∧
    (refreshedToken now t r).member_id = t.member_id ∧
    (refreshedToken now t r).status = t.status ∧
    (refreshedToken now t r).application_token = t.application_token ∧
    (refreshedToken now t r).method = t.method ∧
    (refreshedToken now t r).created_at = t.created_at ∧
    (refreshedToken now t r).access_token = r.access_token ∧
    (refreshedToken now t r).expires_in = some r.expires_in ∧
    (refreshedToken now t r).expires_at = some (now + r.expires_in) ∧
    (refreshedToken now t r).updated_at = now ∧
    (r.refresh_token = none → (refreshedToken now t r).refresh_token = t.refresh_token) := by
  refine ⟨rfl, rfl, rfl, rfl, rfl, rfl, rfl, rfl, rfl, rfl, rfl, rfl, rfl, ?_⟩
  intro h
  simp [refreshedToken, updateTokenMerge, refreshPatch, jsStrOr, h]

/-- C10 witness: the frame theorem applied at refresh time `50` to `tok100`
and a response omitting the rotated refresh token. -/
theorem C10_refresh_frame_witness :
    (refreshedToken 50 tok100 respNoRT).domain = tok100.domain ∧
    (refreshedToken 50 tok100 respNoRT).refresh_token = tok100.refresh_token := by
  obtain ⟨h1, -, -, -, -, -, -, -, -, -, -, -, -, h14⟩ :=
    C10_refresh_frame 50 tok100 respNoRT
  exact ⟨h1, h14 rfl⟩

end JotformBitrix
